import Mathlib

/-!
Verification of the crocdb-api search layer (`src/api.py`).

The Python module is shallowly embedded: pure string helpers become Lean
functions on `String`/`List Char`, the SQLite tables become lists of rows,
the two decorated query operations become pure functions over that database
model, and Python exceptions become an `Except` layer around the operation
bodies.
-/

/-- Whitespace predicate mirroring Python's `str.split()` / `str.strip()`
whitespace set (ASCII whitespace plus the Unicode space separators). -/
def pyIsSpace (c : Char) : Bool :=
  c.toNat = 32 || (9 ≤ c.toNat && c.toNat ≤ 13) ||
  (28 ≤ c.toNat && c.toNat ≤ 31) || c.toNat = 133 || c.toNat = 160 ||
  c.toNat = 5760 || (8192 ≤ c.toNat && c.toNat ≤ 8202) || c.toNat = 8232 ||
  c.toNat = 8233 || c.toNat = 8239 || c.toNat = 8287 || c.toNat = 12288

/-- Python `str.strip()` with no argument: drop leading and trailing
whitespace characters. -/
def pyStripL (l : List Char) : List Char :=
  ((l.dropWhile pyIsSpace).reverse.dropWhile pyIsSpace).reverse

/-- String wrapper of `pyStripL`. -/
def pyStrip (s : String) : String := ⟨pyStripL s.data⟩

/-- Python `str.replace(c, r)` for a one-character needle `c` (the only
shape of needle used by `api.py`): every occurrence of `c` is expanded to
the replacement `r`. -/
def pyReplaceCharL (c : Char) (r : List Char) (l : List Char) : List Char :=
  l.flatMap (fun ch => if ch = c then r else [ch])

/-- String wrapper of `pyReplaceCharL`. -/
def pyReplaceChar (s : String) (c : Char) (r : String) : String :=
  ⟨pyReplaceCharL c r.data s.data⟩

/-- `replace_invalid_chars` (api.py lines 22-32): the five substitutions
are applied sequentially in the dict's insertion order, each value padded
with one space on both sides (so the empty replacements become two
spaces). -/
def replace_invalid_chars (title : String) : String :=
  let t1 := pyReplaceChar title '+' " plus "
  let t2 := pyReplaceChar t1 '&' " and "
  let t3 := pyReplaceChar t2 '™' "  "
  let t4 := pyReplaceChar t3 '©' "  "
  pyReplaceChar t4 '®' "  "

/-- Modelled from the spec (section 4.1): the external `unidecode` library is
not part of this repository.  ASCII characters transliterate to themselves;
a finite table covers the accented letters exercised here; any other
non-ASCII character has no ASCII analogue and is dropped, per the spec's
"characters with no ASCII analogue are dropped, not replaced with
placeholders". -/
def unidecodeChar (c : Char) : List Char :=
  if c.toNat < 128 then [c]
  else if c = 'é' then ['e']
  else if c = 'è' then ['e']
  else if c = 'É' then ['E']
  else if c = 'à' then ['a']
  else if c = 'á' then ['a']
  else if c = 'ü' then ['u']
  else if c = 'ö' then ['o']
  else if c = 'ñ' then ['n']
  else []

/-- Modelled from the spec: `unidecode(text)` transliterates character by
character. -/
def unidecode (s : String) : String := ⟨s.data.flatMap unidecodeChar⟩

/-- One step of `re.sub(c+, c, text)` for a single character `c`: every
maximal run of `c` collapses to a single `c` (a `c` immediately followed by
another `c` is dropped). -/
def collapseRuns (c : Char) : List Char → List Char
  | [] => []
  | [a] => [a]
  | a :: b :: rest =>
    if a = c && b = c then collapseRuns c (b :: rest)
    else a :: collapseRuns c (b :: rest)

/-- `normalize_repeated_chars` (api.py lines 16-19) for a one-character
`char` argument (the only call in the module passes a single space):
`re.sub(escaped_char+, char, text).strip()`. -/
def normalize_repeated_chars (text : String) (c : Char) : String :=
  pyStrip ⟨collapseRuns c text.data⟩

/-- `get_valid_search_key` (api.py lines 35-41). -/
def get_valid_search_key (search_key : String) : String :=
  let s1 := replace_invalid_chars search_key
  let s2 := unidecode s1
  let s3 := normalize_repeated_chars s2 ' '
  pyStrip s3

/-- Characters kept by `re.sub(r"[^a-z0-9]", '', title)`: ASCII lowercase
letters and digits. -/
def isLowerAlnum (c : Char) : Bool :=
  (97 ≤ c.toNat && c.toNat ≤ 122) || (48 ≤ c.toNat && c.toNat ≤ 57)

/-- `create_db_search_key` (api.py lines 44-50): normalize, lowercase,
strip every character outside `[a-z0-9]`, strip whitespace. -/
def create_db_search_key (title : String) : String :=
  let t1 := get_valid_search_key title
  let t2 : String := ⟨t1.data.map Char.toLower⟩
  let t3 : String := ⟨t2.data.filter isLowerAlnum⟩
  pyStrip t3

/-- Python `str.split()` with no separator: split on runs of whitespace,
discarding empty tokens.  `acc` holds the current token reversed. -/
def pySplitL : List Char → List Char → List (List Char)
  | [], acc => if acc.isEmpty then [] else [acc.reverse]
  | c :: rest, acc =>
    if pyIsSpace c then
      if acc.isEmpty then pySplitL rest [] else acc.reverse :: pySplitL rest []
    else pySplitL rest (c :: acc)

/-- String wrapper of `pySplitL`. -/
def pySplit (s : String) : List String :=
  (pySplitL s.data []).map (fun l => ⟨l⟩)

/-- `prepare_search_key` (api.py lines 53-58): split the key on whitespace,
double every embedded double quote, wrap each token in double quotes, join
with single spaces.  Note the source applies this to the raw search key. -/
def prepare_search_key (search_key : String) : String :=
  let words := pySplit search_key
  let escaped_words := words.map (fun w => pyReplaceChar w '"' "\"\"")
  let quoted_words := escaped_words.map (fun w => "\"" ++ w ++ "\"")
  String.intercalate " " quoted_words

/-- Spec-side definition, following the words of spec section 4.2 for claim
comparison: split `toSearchableText(key)` (that is, `get_valid_search_key`)
on whitespace, escape embedded quotes by doubling, wrap in quotes, join
with single spaces. -/
def buildMatchExpressionSpec (key : String) : String :=
  String.intercalate " "
    ((pySplit (get_valid_search_key key)).map
      (fun w => "\"" ++ pyReplaceChar w '"' "\"\"" ++ "\""))

/-- Quote-doubling written independently (per the amended claim wording) as
direct recursion on the characters of a token. -/
def escapeQuotesL : List Char → List Char
  | [] => []
  | c :: rest =>
    if c = '"' then '"' :: '"' :: escapeQuotesL rest else c :: escapeQuotesL rest

/-- The amended match-expression builder: tokens come from the raw key with
no prior normalization. -/
def buildMatchExpressionRaw (key : String) : String :=
  String.intercalate " "
    ((pySplit key).map (fun w => "\"" ++ (⟨escapeQuotesL w.data⟩ : String) ++ "\""))

/-- A row of the `entries` table restricted to the columns projected by the
queries in `api.py` (`slug, rom_id, title, platform, boxart_url`). -/
structure EntryRow where
  slug : String
  rom_id : String
  title : String
  platform : String
  boxart_url : String
deriving DecidableEq

/-- A row of the `regions_entries` association table. -/
structure RegionEntryRow where
  entry : String
  region : String
deriving DecidableEq

/-- A row of the `links` table (columns selected by the hydration query,
plus the `entry` foreign key used in its WHERE clause). -/
structure LinkRow where
  entry : String
  name : String
  type : String
  format : String
  url : String
  filename : String
  host : String
  size : Int
  size_str : String
  source_url : String
deriving DecidableEq

/-- A row of the `entries_fts` full-text index.  The source joins it on
`fts.rowid = e.rowid`; the spec (section 3) guarantees exactly one index row
per entry, so the rowid correspondence is modelled by the entry's unique
slug. -/
structure FtsRow where
  entry : String
  search_key : String
deriving DecidableEq

/-- The read-only relational store consumed by the operations. -/
structure DB where
  entries : List EntryRow
  regions_entries : List RegionEntryRow
  links : List LinkRow
  entries_fts : List FtsRow

/-- A link as projected by the hydration query (no `entry` column). -/
structure LinkOut where
  name : String
  type : String
  format : String
  url : String
  filename : String
  host : String
  size : Int
  size_str : String
  source_url : String
deriving DecidableEq

/-- A fully hydrated entry as returned to the caller. -/
structure EntryOut where
  slug : String
  rom_id : String
  title : String
  platform : String
  boxart_url : String
  regions : List String
  links : List LinkOut
deriving DecidableEq

/-- Payload of the search operation (`data` keys of `get_search`). -/
structure SearchData where
  results : List EntryOut
  current_results : Nat
  total_results : Nat
  current_page : Int
  total_pages : Nat
deriving DecidableEq

/-- The `data` half of the uniform envelope: empty dict, a search payload,
or a single-entry payload. -/
inductive RespData where
  | empty
  | search (d : SearchData)
  | entry (e : EntryOut)
deriving DecidableEq

/-- The uniform envelope built by `build_response` (api.py lines 77-82):
`info` is empty (`none`) on success and carries the error message on
failure. -/
structure Response where
  info : Option String
  data : RespData
deriving DecidableEq

/-- `build_response` (api.py lines 77-82). -/
def build_response (info : Option String) (data : RespData) : Response :=
  ⟨info, data⟩

/-- Python truthiness of an optional string argument (`if search_key:`,
`if not slug:`): `None` and the empty string are falsy. -/
def strTruthy : Option String → Bool
  | none => false
  | some s => !s.isEmpty

/-- The hierarchy of exceptions distinguished by `handle_exception`:
`sqlite3.OperationalError`, any other `sqlite3.DatabaseError`, `ValueError`,
and everything else. -/
inductive PyExc where
  | operationalError
  | databaseError
  | valueError
  | otherError
deriving DecidableEq

/-- `handle_exception` (api.py lines 85-99): run the operation body and map
any raised exception to the uniform error envelope; never re-raise. -/
def handle_exception {α : Type} (body : α → Except PyExc Response) (a : α) : Response :=
  match body a with
  | Except.ok r => r
  | Except.error PyExc.operationalError =>
      build_response (some "Database operation failed") RespData.empty
  | Except.error PyExc.databaseError =>
      build_response (some "A database error occurred") RespData.empty
  | Except.error PyExc.valueError =>
      build_response (some "Invalid input provided") RespData.empty
  | Except.error PyExc.otherError =>
      build_response (some "An unexpected error occurred") RespData.empty

/-- `with_db` (api.py lines 61-74): open the connection (which may itself
raise — that failure is NOT inside the wrapped function), then run the
wrapped function on the cursor; close in a finally block (closing is
modelled as non-failing). -/
def with_db {α : Type} (connect : Except PyExc α)
    (body : α → Except PyExc Response) : Except PyExc Response :=
  match connect with
  | Except.error e => Except.error e
  | Except.ok cur => body cur

/-- The decorator stack shared by every operation in `api.py`
(`@with_db` above `@handle_exception`, lines 102-103, 205-206, 249-250,
262-263, 274-275): `with_db` is the OUTER decorator, so the
exception-to-envelope translation applies only to the operation body, not
to opening the connection. -/
def api_endpoint {α : Type} (connect : Except PyExc α)
    (body : α → Except PyExc Response) : Except PyExc Response :=
  with_db connect (fun cur => Except.ok (handle_exception body cur))

/-- Hydration: the per-entry `regions` list (api.py lines 178-182). -/
def entryRegions (db : DB) (slug : String) : List String :=
  (db.regions_entries.filter (fun a => a.entry = slug)).map (fun a => a.region)

/-- Hydration: the per-entry `links` list (api.py lines 184-189). -/
def entryLinks (db : DB) (slug : String) : List LinkOut :=
  (db.links.filter (fun l => l.entry = slug)).map
    (fun l => ⟨l.name, l.type, l.format, l.url, l.filename, l.host, l.size,
               l.size_str, l.source_url⟩)

/-- Attach the complete regions and links collections to an entry row. -/
def hydrate (db : DB) (e : EntryRow) : EntryOut :=
  ⟨e.slug, e.rom_id, e.title, e.platform, e.boxart_url,
   entryRegions db e.slug, entryLinks db e.slug⟩

/-- Arguments of `get_search` with the source's default values. -/
structure SearchParams where
  search_key : Option String := none
  platforms : Option (List String) := none
  regions : Option (List String) := none
  rom_id : Option String := none
  max_results : Int := 100
  page : Int := 1

/-- `max_results = max(1, min(max_results, 100))` (api.py line 117). -/
def clampMaxResults (m : Int) : Int := max 1 (min m 100)

/-- `page = max(1, page)` (api.py line 118). -/
def clampPage (p : Int) : Int := max 1 p

/-- The clamped page size as a natural number (it is always in [1,100]). -/
def clampedMax (p : SearchParams) : Nat := (clampMaxResults p.max_results).toNat

/-- The FTS predicate clause: when a truthy search key is given, the entry
must have an index row (inner join on the rowid correspondence) whose
`search_key` MATCHes `prepare_search_key(search_key)`.  The semantics of
the SQLite MATCH operator are external, so the model takes it as the
function argument `matchOp` applied to the indexed key and the prepared
expression. -/
def matchClauseHolds (db : DB) (matchOp : String → String → Bool)
    (skOpt : Option String) (e : EntryRow) : Bool :=
  if strTruthy skOpt then
    match db.entries_fts.find? (fun f => f.entry = e.slug) with
    | none => false
    | some f => matchOp f.search_key (prepare_search_key (skOpt.getD ""))
  else true

/-- The platform clause: `e.platform IN (platforms)` when the list is
non-empty. -/
def platformClauseHolds (platforms : List String) (e : EntryRow) : Bool :=
  if platforms.isEmpty then true else platforms.contains e.platform

/-- The region clause (api.py lines 138-145): LEFT JOIN `regions_entries`
on the slug and require `re.region IN (regions) OR re.region IS NULL` on
some joined row; with DISTINCT root projection the entry survives iff some
left-join row satisfies the clause.  An entry with no associations yields
the single all-NULL join row. -/
def regionClauseHolds (db : DB) (regions : List String) (e : EntryRow) : Bool :=
  let assocs := db.regions_entries.filter (fun a => a.entry = e.slug)
  if assocs.isEmpty then true
  else assocs.any (fun a => regions.contains a.region)

/-- The rom_id clause: `e.rom_id = ?` when a truthy rom_id is given. -/
def romIdClauseHolds (romId : Option String) (e : EntryRow) : Bool :=
  if strTruthy romId then e.rom_id = romId.getD "" else true

/-- Conjunction of the WHERE clauses of `get_search` (the region clause is
only added when the `regions` list is non-empty, matching `if regions:`). -/
def entryRetained (db : DB) (matchOp : String → String → Bool)
    (p : SearchParams) (e : EntryRow) : Bool :=
  matchClauseHolds db matchOp p.search_key e
  && platformClauseHolds (p.platforms.getD []) e
  && (if (p.regions.getD []).isEmpty then true
      else regionClauseHolds db (p.regions.getD []) e)
  && romIdClauseHolds p.rom_id e

/-- Helper for `dedupKeepFirst`: drop any row equal to one already seen. -/
def dedupKeepFirstAux {α : Type} [DecidableEq α] (seen : List α) : List α → List α
  | [] => []
  | a :: rest =>
    if seen.contains a then dedupKeepFirstAux seen rest
    else a :: dedupKeepFirstAux (a :: seen) rest

/-- SELECT DISTINCT on the root projection: keep the first occurrence of
each projected row. -/
def dedupKeepFirst {α : Type} [DecidableEq α] (l : List α) : List α :=
  dedupKeepFirstAux [] l

/-- The distinct root rows matching all filters; its length is the value of
the COUNT query (api.py lines 154-156). -/
def searchRetained (db : DB) (matchOp : String → String → Bool)
    (p : SearchParams) : List EntryRow :=
  dedupKeepFirst (db.entries.filter (entryRetained db matchOp p))

/-- `total_pages = (total_results + max_results - 1) // max_results if
max_results > 0 else 1` (api.py lines 158-159).  The else branch is kept
although the clamp makes it unreachable. -/
def searchTotalPages (db : DB) (matchOp : String → String → Bool)
    (p : SearchParams) : Nat :=
  if 0 < clampedMax p then
    ((searchRetained db matchOp p).length + clampedMax p - 1) / clampedMax p
  else 1

/-- `page = min(page, total_pages)` after `page = max(1, page)`
(api.py lines 118 and 160). -/
def searchCurrentPage (db : DB) (matchOp : String → String → Bool)
    (p : SearchParams) : Int :=
  min (clampPage p.page) (searchTotalPages db matchOp p : Int)

/-- `offset = (page - 1) * max_results` (api.py line 161). -/
def searchOffset (db : DB) (matchOp : String → String → Bool)
    (p : SearchParams) : Int :=
  (searchCurrentPage db matchOp p - 1) * (clampedMax p : Int)

/-- The indexed search key of an entry (its unique `entries_fts` row). -/
def ftsSearchKeyOf (db : DB) (e : EntryRow) : String :=
  match db.entries_fts.find? (fun f => f.entry = e.slug) with
  | some f => f.search_key
  | none => ""

/-- ASCII lowercasing of a string, as applied by SQLite LIKE's default
case-insensitive comparison. -/
def asciiLower (s : String) : String := ⟨s.data.map Char.toLower⟩

/-- `s LIKE pat || '%'` for a pattern with no wildcard characters (here the
pattern is a `create_db_search_key` output, all `[a-z0-9]`): ASCII
case-insensitive starts-with. -/
def sqliteLikeStartsWith (s pat : String) : Bool :=
  (asciiLower pat).isPrefixOf (asciiLower s)

/-- The ORDER BY key (api.py line 166): whether the indexed search key
starts with `create_db_search_key(search_key)`. -/
def prefixOrderKey (db : DB) (dbKey : String) (e : EntryRow) : Bool :=
  sqliteLikeStartsWith (ftsSearchKeyOf db e) dbKey

/-- The ordering applied by the paginated query (api.py lines 163-170):
with a truthy search key, `ORDER BY (fts.search_key LIKE ? || '%') DESC` —
a descending sort on a boolean key, i.e. rows whose key is true first, rows
whose key is false after them (SQLite fixes no order within each group;
the model keeps each group in table order); with no search key, no ORDER BY
clause is emitted. -/
def orderForSearch (db : DB) (skOpt : Option String)
    (rows : List EntryRow) : List EntryRow :=
  if strTruthy skOpt then
    let dbKey := create_db_search_key (skOpt.getD "")
    rows.filter (prefixOrderKey db dbKey)
      ++ rows.filter (fun e => !prefixOrderKey db dbKey e)
  else rows

/-- `LIMIT max_results OFFSET offset`; SQLite treats a negative offset as
zero, matched here by `Int.toNat`. -/
def searchPageRows (db : DB) (matchOp : String → String → Bool)
    (p : SearchParams) : List EntryRow :=
  ((orderForSearch db p.search_key (searchRetained db matchOp p)).drop
      (searchOffset db matchOp p).toNat).take (clampedMax p)

/-- The search payload assembled by `get_search` (api.py lines 104-202). -/
def get_search_core (db : DB) (matchOp : String → String → Bool)
    (p : SearchParams) : SearchData :=
  ⟨(searchPageRows db matchOp p).map (hydrate db),
   ((searchPageRows db matchOp p).map (hydrate db)).length,
   (searchRetained db matchOp p).length,
   searchCurrentPage db matchOp p,
   searchTotalPages db matchOp p⟩

/-- The full `get_search` response on the non-raising path. -/
def get_search_model (db : DB) (matchOp : String → String → Bool)
    (p : SearchParams) : Response :=
  build_response none (RespData.search (get_search_core db matchOp p))

/-- `ORDER BY RANDOM() LIMIT 1` then `fetchone`: some row of a non-empty
table, none on an empty table.  The random draw is modelled by the seed
`r` selecting an index. -/
def pickRandom (l : List EntryRow) (r : Nat) : Option EntryRow :=
  l.get? (r % l.length)

/-- `get_entry` (api.py lines 207-246): `random` is checked first; otherwise
a falsy slug is a client error, a slug matching no row is not-found, and a
found row is hydrated. -/
def get_entry_core (db : DB) (slug : Option String) (random : Bool)
    (r : Nat) : Response :=
  if random then
    match pickRandom db.entries r with
    | none => build_response none RespData.empty
    | some row => build_response none (RespData.entry (hydrate db row))
  else if !strTruthy slug then
    build_response (some "Slug is required") RespData.empty
  else
    match db.entries.find? (fun e => e.slug = slug.getD "") with
    | none => build_response (some "Entry not found") RespData.empty
    | some row => build_response none (RespData.entry (hydrate db row))

/-- An empty catalog. -/
def emptyDB : DB := ⟨[], [], [], []⟩

/-- The default arguments of `get_search`. -/
def defaultParams : SearchParams := {}

/-- A sample catalog row with no region associations, used to instantiate
the theorems below at concrete inputs. -/
def sampleEntry : EntryRow := ⟨"mario-kart", "r1", "Mario Kart", "snes", ""⟩

/-- A one-entry catalog whose single entry has no region associations. -/
def sampleDB : DB := ⟨[sampleEntry], [], [], [⟨"mario-kart", "mariokart"⟩]⟩

/-! Helper lemmas about the string pipeline. -/

theorem flatMap_eq_self {l : List Char} {f : Char → List Char}
    (h : ∀ c ∈ l, f c = [c]) : l.flatMap f = l := by
  induction l with
  | nil => rfl
  | cons a t ih =>
    simp only [List.flatMap_cons]
    rw [h a (by simp), ih (fun c hc => h c (by simp [hc]))]
    rfl

theorem pyReplaceCharL_eq_self {c : Char} {r : List Char} {l : List Char}
    (h : ∀ ch ∈ l, ch ≠ c) : pyReplaceCharL c r l = l :=
  flatMap_eq_self (fun ch hm => by simp [h ch hm])

theorem pyReplaceChar_eq_self {s : String} {c : Char} {r : String}
    (h : ∀ ch ∈ s.data, ch ≠ c) : pyReplaceChar s c r = s := by
  unfold pyReplaceChar
  rw [pyReplaceCharL_eq_self h]

theorem dropWhile_eq_self_of {p : Char → Bool} {l : List Char}
    (h : ∀ x ∈ l, p x = false) : l.dropWhile p = l := by
  cases l with
  | nil => rfl
  | cons a t => rw [List.dropWhile_cons, h a (by simp)]; simp

theorem pyStripL_eq_self {l : List Char} (h : ∀ x ∈ l, pyIsSpace x = false) :
    pyStripL l = l := by
  unfold pyStripL
  rw [dropWhile_eq_self_of h,
      dropWhile_eq_self_of (fun x hx => h x (List.mem_reverse.mp hx)),
      List.reverse_reverse]

theorem pyStrip_eq_self {s : String} (h : ∀ x ∈ s.data, pyIsSpace x = false) :
    pyStrip s = s := by
  unfold pyStrip
  rw [pyStripL_eq_self h]

theorem mem_pyStripL {l : List Char} {x : Char} (hx : x ∈ pyStripL l) : x ∈ l := by
  unfold pyStripL at hx
  rw [List.mem_reverse] at hx
  have h1 := (List.dropWhile_sublist pyIsSpace).subset hx
  rw [List.mem_reverse] at h1
  exact (List.dropWhile_sublist pyIsSpace).subset h1

theorem collapseRuns_eq_self {c : Char} {l : List Char} (h : ∀ x ∈ l, x ≠ c) :
    collapseRuns c l = l := by
  induction l with
  | nil => rfl
  | cons a t ih =>
    cases t with
    | nil => rfl
    | cons b t2 =>
      have ha : a ≠ c := h a (by simp)
      have ht : collapseRuns c (b :: t2) = b :: t2 :=
        ih (fun x hx => h x (by simp [hx]))
      show (if a = c && b = c then collapseRuns c (b :: t2)
            else a :: collapseRuns c (b :: t2)) = a :: b :: t2
      simp [ha, ht]

theorem map_eq_self_of {l : List Char} {f : Char → Char}
    (h : ∀ c ∈ l, f c = c) : l.map f = l := by
  induction l with
  | nil => rfl
  | cons a t ih =>
    simp only [List.map_cons]
    rw [h a (by simp), ih (fun c hc => h c (by simp [hc]))]

theorem isLowerAlnum_toNat {c : Char} (h : isLowerAlnum c = true) :
    (97 ≤ c.toNat ∧ c.toNat ≤ 122) ∨ (48 ≤ c.toNat ∧ c.toNat ≤ 57) := by
  simp only [isLowerAlnum, Bool.or_eq_true, Bool.and_eq_true,
             decide_eq_true_eq] at h
  exact h

theorem isLowerAlnum_ascii {c : Char} (h : isLowerAlnum c = true) :
    c.toNat < 128 := by
  rcases isLowerAlnum_toNat h with h1 | h1 <;> omega

theorem isLowerAlnum_not_space {c : Char} (h : isLowerAlnum c = true) :
    pyIsSpace c = false := by
  have h1 := isLowerAlnum_toNat h
  cases hs : pyIsSpace c
  · rfl
  · exfalso
    simp only [pyIsSpace, Bool.or_eq_true, Bool.and_eq_true,
               decide_eq_true_eq] at hs
    omega

theorem isLowerAlnum_ne_char {c d : Char} (h : isLowerAlnum c = true)
    (hd : isLowerAlnum d = false) : c ≠ d := by
  intro he
  subst he
  rw [h] at hd
  simp at hd

theorem isLowerAlnum_toLower {c : Char} (h : isLowerAlnum c = true) :
    c.toLower = c := by
  have h1 := isLowerAlnum_toNat h
  simp only [Char.toLower]
  rw [if_neg (by omega)]

theorem get_valid_search_key_eq_self {s : String}
    (h : ∀ c ∈ s.data, isLowerAlnum c = true) : get_valid_search_key s = s := by
  have hplus : ∀ ch ∈ s.data, ch ≠ '+' :=
    fun ch hm => isLowerAlnum_ne_char (h ch hm) (by decide)
  have hand : ∀ ch ∈ s.data, ch ≠ '&' :=
    fun ch hm => isLowerAlnum_ne_char (h ch hm) (by decide)
  have htm : ∀ ch ∈ s.data, ch ≠ '™' :=
    fun ch hm => isLowerAlnum_ne_char (h ch hm) (by decide)
  have hco : ∀ ch ∈ s.data, ch ≠ '©' :=
    fun ch hm => isLowerAlnum_ne_char (h ch hm) (by decide)
  have hre : ∀ ch ∈ s.data, ch ≠ '®' :=
    fun ch hm => isLowerAlnum_ne_char (h ch hm) (by decide)
  have hrep : replace_invalid_chars s = s := by
    simp only [replace_invalid_chars]
    rw [pyReplaceChar_eq_self hplus, pyReplaceChar_eq_self hand,
        pyReplaceChar_eq_self htm, pyReplaceChar_eq_self hco,
        pyReplaceChar_eq_self hre]
  have hunide : unidecode s = s := by
    unfold unidecode
    rw [flatMap_eq_self
      (fun c hm => by unfold unidecodeChar; rw [if_pos (isLowerAlnum_ascii (h c hm))])]
  have hnorm : normalize_repeated_chars s ' ' = s := by
    simp only [normalize_repeated_chars]
    rw [collapseRuns_eq_self
      (fun x hx => isLowerAlnum_ne_char (h x hx) (by decide))]
    exact pyStrip_eq_self (fun x hx => isLowerAlnum_not_space (h x hx))
  simp only [get_valid_search_key]
  rw [hrep, hunide, hnorm]
  exact pyStrip_eq_self (fun x hx => isLowerAlnum_not_space (h x hx))

theorem create_db_search_key_data (x : String) :
    (create_db_search_key x).data
      = pyStripL (((get_valid_search_key x).data.map Char.toLower).filter isLowerAlnum) := by
  simp only [create_db_search_key, pyStrip]

theorem create_db_search_key_chars (x : String) :
    ∀ c ∈ (create_db_search_key x).data, isLowerAlnum c = true := by
  intro c hc
  rw [create_db_search_key_data] at hc
  exact (List.mem_filter.mp (mem_pyStripL hc)).2

theorem escapeQuotesL_eq_replace (l : List Char) :
    pyReplaceCharL '"' ['"', '"'] l = escapeQuotesL l := by
  induction l with
  | nil => rfl
  | cons a t ih =>
    simp only [pyReplaceCharL, List.flatMap_cons, escapeQuotesL] at *
    by_cases ha : a = '"'
    · simp [ha, ih]
    · simp [ha, ih]

/-! Theorems settling the claims. -/

/-- C8: `toIndexKey` (`create_db_search_key`) is idempotent: applying it to
its own output returns that output unchanged, for every string. -/
theorem create_db_search_key_idempotent (x : String) :
    create_db_search_key (create_db_search_key x) = create_db_search_key x := by
  have h := create_db_search_key_chars x
  have hgv : get_valid_search_key (create_db_search_key x) = create_db_search_key x :=
    get_valid_search_key_eq_self h
  have hmap : (create_db_search_key x).data.map Char.toLower = (create_db_search_key x).data :=
    map_eq_self_of (fun c hm => isLowerAlnum_toLower (h c hm))
  have hfil : (create_db_search_key x).data.filter isLowerAlnum = (create_db_search_key x).data :=
    List.filter_eq_self.mpr h
  have hstrip : pyStripL (create_db_search_key x).data = (create_db_search_key x).data :=
    pyStripL_eq_self (fun c hm => isLowerAlnum_not_space (h c hm))
  apply String.ext
  rw [create_db_search_key_data, hgv, hmap, hfil, hstrip]

/-- C4 counterexample: on `"Pokémon Red & Blue"` the index key produced by
`create_db_search_key` is NOT the spec's expected constant
`"pokemonandredandblue"` (the spec's constant inserts a spurious `and`
between `pokemon` and `red`). -/
theorem pokemon_index_key_counterexample :
    create_db_search_key "Pokémon Red & Blue" ≠ "pokemonandredandblue" := by
  decide

/-- C4 amended: `create_db_search_key "Pokémon Red & Blue"` returns exactly
`"pokemonredandblue"`: the diacritic is stripped, `&` becomes `and` with
padding, the result is lowercased and all non-alphanumerics are removed. -/
theorem pokemon_index_key_value :
    create_db_search_key "Pokémon Red & Blue" = "pokemonredandblue" := by
  decide

/-- C3 counterexample: the match expression actually passed to the MATCH
operator is `prepare_search_key` of the RAW key; at `"a&b"` it differs from
the claimed construction that first normalizes with `toSearchableText`
(`get_valid_search_key`). -/
theorem match_expression_normalization_counterexample :
    prepare_search_key "a&b" = "\"a&b\""
    ∧ buildMatchExpressionSpec "a&b" = "\"a\" \"and\" \"b\""
    ∧ prepare_search_key "a&b" ≠ buildMatchExpressionSpec "a&b" := by
  exact ⟨by decide, by decide, by decide⟩

/-- C3 amended: the match expression is built from the raw search key with
no prior normalization: split on whitespace, double each embedded double
quote, wrap each token in double quotes, join with single spaces; an empty
token list yields the empty expression. -/
theorem prepare_search_key_raw_tokens (sk : String) :
    prepare_search_key sk = buildMatchExpressionRaw sk
    ∧ (pySplit sk = [] → prepare_search_key sk = "") := by
  constructor
  · simp only [prepare_search_key, buildMatchExpressionRaw, List.map_map]
    congr 1
    apply List.map_congr_left
    intro w hw
    show "\"" ++ pyReplaceChar w '"' "\"\"" ++ "\"" = _
    have hesc : pyReplaceChar w '"' "\"\"" = (⟨escapeQuotesL w.data⟩ : String) :=
      congrArg String.mk (escapeQuotesL_eq_replace w.data)
    rw [hesc]
  · intro hsplit
    simp only [prepare_search_key, hsplit, List.map_nil]
    decide

/-- C7: on every call, the page size is clamped into the inclusive range
[1, 100] (0 becomes 1, 500 becomes 100) and the requested page is clamped
to a minimum of 1, before any query is evaluated. -/
theorem search_clamps (p : SearchParams) :
    1 ≤ clampedMax p ∧ clampedMax p ≤ 100
    ∧ clampedMax { max_results := 0 } = 1
    ∧ clampedMax { max_results := 500 } = 100
    ∧ 1 ≤ clampPage p.page := by
  have h1 : (1 : Int) ≤ clampMaxResults p.max_results := le_max_left 1 _
  have h2 : clampMaxResults p.max_results ≤ 100 :=
    max_le (by norm_num) (min_le_right _ _)
  refine ⟨?_, ?_, by decide, by decide, le_max_left 1 p.page⟩
  · simp only [clampedMax]; omega
  · simp only [clampedMax]; omega

/-- C3 witness: the amended theorem instantiated at an empty key (whose
token list is empty) and at a two-token key. -/
theorem prepare_search_key_raw_tokens_witness :
    prepare_search_key "" = ""
    ∧ prepare_search_key "a b" = buildMatchExpressionRaw "a b" :=
  ⟨(prepare_search_key_raw_tokens "").2 (by decide),
   (prepare_search_key_raw_tokens "a b").1⟩

theorem clampedMax_pos (p : SearchParams) : 0 < clampedMax p := by
  have h1 : (1 : Int) ≤ clampMaxResults p.max_results := le_max_left 1 _
  simp only [clampedMax]
  omega

/-- C1 counterexample: on an empty catalog with the default arguments the
search returns `total_results = 0`, `total_pages = 0` and `current_page =
0`, refuting both "totalPages is at least 1 even when totalResults is 0"
and "1 <= current_page" (the `else 1` fallback in the source is dead
because `max_results` is always clamped to at least 1). -/
theorem search_zero_results_pagination_counterexample :
    (get_search_core emptyDB (fun _ _ => true) defaultParams).total_results = 0
    ∧ (get_search_core emptyDB (fun _ _ => true) defaultParams).total_pages = 0
    ∧ (get_search_core emptyDB (fun _ _ => true) defaultParams).current_page = 0 := by
  exact ⟨by decide, by decide, by decide⟩

/-- C1 amended: `total_pages = ceil(total_results / max_results)` computed
as `(total_results + max_results - 1) // max_results` (which is 0 when
`total_results` is 0, not 1), the requested page is clamped down to
`total_pages`, and consequently `1 <= current_page <= total_pages` holds
whenever at least one row matches, while an empty result set yields
`current_page = total_pages = 0`. -/
theorem search_pagination_amended (db : DB) (m : String → String → Bool)
    (p : SearchParams) :
    (get_search_core db m p).total_pages
        = ((get_search_core db m p).total_results + clampedMax p - 1) / clampedMax p
    ∧ (get_search_core db m p).current_page
        = min (clampPage p.page) (((get_search_core db m p).total_pages : Nat) : Int)
    ∧ (0 < (get_search_core db m p).total_results →
        1 ≤ (get_search_core db m p).current_page
        ∧ (get_search_core db m p).current_page
            ≤ (((get_search_core db m p).total_pages : Nat) : Int))
    ∧ ((get_search_core db m p).total_results = 0 →
        (get_search_core db m p).current_page = 0
        ∧ (get_search_core db m p).total_pages = 0) := by
  have hmax := clampedMax_pos p
  have htr : (get_search_core db m p).total_results = (searchRetained db m p).length := rfl
  have htp : (get_search_core db m p).total_pages
      = ((searchRetained db m p).length + clampedMax p - 1) / clampedMax p := by
    show searchTotalPages db m p = _
    simp only [searchTotalPages]
    rw [if_pos hmax]
  have hcp : (get_search_core db m p).current_page
      = min (clampPage p.page) ((searchTotalPages db m p : Nat) : Int) := rfl
  have hpg : (1 : Int) ≤ clampPage p.page := le_max_left 1 _
  refine ⟨by rw [htp, htr], rfl, ?_, ?_⟩
  · intro hpos
    rw [htr] at hpos
    have h1 : 1 ≤ (get_search_core db m p).total_pages := by
      rw [htp]
      rw [Nat.one_le_div_iff hmax]
      omega
    constructor
    · rw [hcp]
      have h2 : (1 : Int) ≤ ((searchTotalPages db m p : Nat) : Int) := by
        have h3 : 1 ≤ searchTotalPages db m p := h1
        exact_mod_cast h3
      exact le_min hpg h2
    · exact min_le_right _ _
  · intro hzero
    rw [htr] at hzero
    have h0 : (get_search_core db m p).total_pages = 0 := by
      rw [htp, hzero]
      exact Nat.div_eq_of_lt (by omega)
    refine ⟨?_, h0⟩
    rw [hcp]
    have h4 : searchTotalPages db m p = 0 := h0
    rw [h4]
    simp only [Nat.cast_zero]
    exact min_eq_right (by omega)

/-- C1 amended witness: on a one-entry catalog with default arguments the
matched-row count is positive and the page bounds hold concretely. -/
theorem search_pagination_amended_witness :
    1 ≤ (get_search_core sampleDB (fun _ _ => true) defaultParams).current_page
    ∧ (get_search_core sampleDB (fun _ _ => true) defaultParams).current_page
        ≤ (((get_search_core sampleDB (fun _ _ => true) defaultParams).total_pages : Nat) : Int) :=
  (search_pagination_amended sampleDB (fun _ _ => true) defaultParams).2.2.1 (by decide)

/-- C5: with a non-empty regions filter, an entry survives the region
clause iff one of its associated region codes is in the filter list OR it
has no region association at all; in particular an entry with zero region
associations is never excluded by any region filter. -/
theorem region_filter_inclusive (db : DB) (regs : List String) (e : EntryRow)
    (h : regs ≠ []) :
    (regionClauseHolds db regs e = true ↔
      ((∃ a ∈ db.regions_entries, a.entry = e.slug ∧ a.region ∈ regs)
        ∨ ∀ a ∈ db.regions_entries, a.entry ≠ e.slug))
    ∧ ((∀ a ∈ db.regions_entries, a.entry ≠ e.slug) →
        regionClauseHolds db regs e = true) := by
  have hmain : regionClauseHolds db regs e = true ↔
      ((∃ a ∈ db.regions_entries, a.entry = e.slug ∧ a.region ∈ regs)
        ∨ ∀ a ∈ db.regions_entries, a.entry ≠ e.slug) := by
    simp only [regionClauseHolds]
    by_cases hemp : (db.regions_entries.filter (fun a => a.entry = e.slug)).isEmpty = true
    · rw [if_pos hemp]
      simp only [true_iff]
      right
      intro a ha hslug
      have hmem : a ∈ db.regions_entries.filter (fun a => a.entry = e.slug) :=
        List.mem_filter.mpr ⟨ha, by simp [hslug]⟩
      rw [List.isEmpty_iff] at hemp
      rw [hemp] at hmem
      exact List.not_mem_nil a hmem
    · rw [if_neg hemp]
      constructor
      · intro hany
        left
        rcases List.any_eq_true.mp hany with ⟨a, haf, hreg⟩
        rcases List.mem_filter.mp haf with ⟨ha, hslug⟩
        refine ⟨a, ha, by simpa using hslug, ?_⟩
        rw [List.elem_iff] at hreg
        exact hreg
      · intro hor
        rcases hor with ⟨a, ha, hslug, hreg⟩ | hnone
        · apply List.any_eq_true.mpr
          refine ⟨a, List.mem_filter.mpr ⟨ha, by simp [hslug]⟩, ?_⟩
          rw [List.elem_iff]
          exact hreg
        · exfalso
          apply hemp
          rw [List.isEmpty_iff, List.filter_eq_nil_iff]
          intro a ha
          simp [hnone a ha]
  exact ⟨hmain, fun hn => hmain.mpr (Or.inr hn)⟩

/-- C5 witness: the filter `["US"]` against the sample entry, which has
zero region associations, keeps the entry. -/
theorem region_filter_inclusive_witness :
    regionClauseHolds sampleDB ["US"] sampleEntry = true :=
  (region_filter_inclusive sampleDB ["US"] sampleEntry (by decide)).2 (by decide)

/-- C9: with a truthy search key the paginated query's ordering places
every row whose indexed search key starts with
`create_db_search_key(search_key)` before every row whose key does not
(descending boolean sort, as a permutation of the input rows); with no
search key (absent or empty) no reordering is applied. -/
theorem search_ordering (db : DB) (rows : List EntryRow) (sk : String)
    (h : sk ≠ "") :
    (∃ pre post,
      orderForSearch db (some sk) rows = pre ++ post
      ∧ (∀ e ∈ pre, prefixOrderKey db (create_db_search_key sk) e = true)
      ∧ (∀ e ∈ post, prefixOrderKey db (create_db_search_key sk) e = false)
      ∧ (orderForSearch db (some sk) rows).Perm rows)
    ∧ orderForSearch db none rows = rows
    ∧ orderForSearch db (some "") rows = rows := by
  have htr : strTruthy (some sk) = true := by
    simp only [strTruthy, Bool.not_eq_true']
    rw [Bool.eq_false_iff]
    intro he
    exact h ((String.isEmpty_iff sk).mp he)
  have hord : orderForSearch db (some sk) rows
      = rows.filter (prefixOrderKey db (create_db_search_key sk))
        ++ rows.filter (fun e => !prefixOrderKey db (create_db_search_key sk) e) := by
    simp only [orderForSearch, htr, if_true, Option.getD_some]
  have hemp : strTruthy (some "") = false := by decide
  refine ⟨⟨rows.filter (prefixOrderKey db (create_db_search_key sk)),
          rows.filter (fun e => !prefixOrderKey db (create_db_search_key sk) e),
          hord, ?_, ?_, ?_⟩, rfl, by simp [orderForSearch, hemp]⟩
  · intro e he
    exact (List.mem_filter.mp he).2
  · intro e he
    have h2 := (List.mem_filter.mp he).2
    simpa using h2
  · rw [hord]
    exact List.filter_append_perm _ rows

/-- C9 witness: the theorem instantiated at the sample catalog; with no
search key the rows come back unchanged. -/
theorem search_ordering_witness :
    orderForSearch sampleDB none [sampleEntry] = [sampleEntry] :=
  (search_ordering sampleDB [sampleEntry] "a" (by decide)).2.1

/-- C6: `get_entry` distinguishes the three outcomes: no slug (and random
false) gives `info.error = "Slug is required"`; a supplied slug matching no
row gives `info.error = "Entry not found"`; `random = true` on an empty
catalog gives the empty response with no error. -/
theorem get_entry_outcomes (db : DB) (s : String) (r : Nat) :
    (get_entry_core db none false r).info = some "Slug is required"
    ∧ (s ≠ "" → (∀ e ∈ db.entries, e.slug ≠ s) →
        (get_entry_core db (some s) false r).info = some "Entry not found")
    ∧ (db.entries = [] →
        get_entry_core db (some s) true r = build_response none RespData.empty
        ∧ get_entry_core db none true r = build_response none RespData.empty) := by
  refine ⟨rfl, ?_, ?_⟩
  · intro hs hns
    have htr : strTruthy (some s) = true := by
      simp only [strTruthy, Bool.not_eq_true']
      rw [Bool.eq_false_iff]
      intro he
      exact hs ((String.isEmpty_iff s).mp he)
    have hfind : db.entries.find? (fun e => e.slug = s) = none := by
      rw [List.find?_eq_none]
      intro e he
      simp [hns e he]
    simp [get_entry_core, build_response, htr, hfind]
  · intro hemp
    constructor <;> simp [get_entry_core, pickRandom, build_response, hemp]

/-- C6 witness: the three outcomes at the empty catalog and slug `"x"`. -/
theorem get_entry_outcomes_witness :
    (get_entry_core emptyDB none false 0).info = some "Slug is required"
    ∧ (get_entry_core emptyDB (some "x") false 0).info = some "Entry not found"
    ∧ get_entry_core emptyDB (some "x") true 0 = build_response none RespData.empty :=
  ⟨(get_entry_outcomes emptyDB "x" 0).1,
   (get_entry_outcomes emptyDB "x" 0).2.1 (by decide) (by decide),
   ((get_entry_outcomes emptyDB "x" 0).2.2 rfl).1⟩

/-- C10: `random = true` takes precedence over the slug argument in
`get_entry`: the response with a slug supplied is identical to the response
with no slug, and neither error path ("Slug is required" / "Entry not
found") can be taken — `info` is always empty on the random branch. -/
theorem get_entry_random_precedence (db : DB) (s : String) (r : Nat) :
    get_entry_core db (some s) true r = get_entry_core db none true r
    ∧ (get_entry_core db (some s) true r).info = none := by
  constructor
  · rfl
  · cases hpick : pickRandom db.entries r <;>
      simp [get_entry_core, build_response, hpick]

/-- C2: a failure while opening the database connection escapes the
operation uncaught, because `with_db` sits OUTSIDE `handle_exception` in
the decorator stack, while any exception raised inside the operation body
is converted into the uniform envelope with a non-empty error message. -/
theorem connect_failure_escapes_handler :
    api_endpoint (Except.error PyExc.operationalError)
        (fun _ : Unit => Except.ok (build_response none RespData.empty))
      = Except.error PyExc.operationalError
    ∧ ∀ (e : PyExc) (cur : Unit),
        ∃ msg, handle_exception (fun _ : Unit => Except.error e) cur
            = build_response (some msg) RespData.empty ∧ msg ≠ "" := by
  refine ⟨rfl, ?_⟩
  intro e cur
  cases e
  · exact ⟨"Database operation failed", rfl, by decide⟩
  · exact ⟨"A database error occurred", rfl, by decide⟩
  · exact ⟨"Invalid input provided", rfl, by decide⟩
  · exact ⟨"An unexpected error occurred", rfl, by decide⟩
